import Mathlib

/-!
# iSCSIKernelInterface.c : user-space side of the iSCSI initiator control channel

A shallow embedding of `src/iSCSIInitiator/iSCSIKernelInterface.c`.

Every function of the file talks to the driver through the IOKit calls
`IOConnectCallMethod`, `IOConnectCallScalarMethod` and `IOConnectCallStructMethod`.
The driver is not part of the file, so it is an arbitrary function `Env.engine`
from the history of the process and the arguments of a call to what the call
leaves behind (return code, scalar output, output count, output structure and
output structure size).  Every boundary call, every buffer allocation and every
buffer release is appended to a trace, so that "no call was made", "exactly one
buffer was allocated" and "the buffer was released" are statements about the
trace.

Conventions
* pointers are natural numbers, `NULL` is `0`;
* structures handed *to* the driver are passed by content (`Option Buf`,
  `none` for a `NULL` pointer), structures filled *by* the driver are passed by
  address and their content after the call is taken from the reply;
* `errno_t` and `kern_return_t` are `Int`, the unsigned types are `Nat` with an
  explicit `%` where the C code converts to a narrower type.
-/

namespace iSCSIKernelInterface

/-- A block of bytes. -/
abbrev Buf := List Nat

/-- An address; `0` is `NULL`. -/
abbrev Ptr := Nat

/-- The `NULL` pointer. -/
def NULL : Ptr := 0

/-- The `EINVAL` of `errno.h`. -/
def EINVAL : Int := 22

/-- The `EIO` of `errno.h`. -/
def EIO : Int := 5

/-- The `kIOReturnSuccess` of `IOReturn.h`. -/
def kIOReturnSuccess : Int := 0

/-- The `kIOReturnNotFound` of `IOReturn.h`: `0xe00002f0` read as a 32-bit `int`. -/
def kIOReturnNotFound : Int := -536870160

/-- The `IO_OBJECT_NULL` of `IOKitLib.h`. -/
def IO_OBJECT_NULL : Nat := 0

/-- The `sizeof(struct sockaddr)` of `sys/socket.h`. -/
def sizeofSockaddr : Nat := 16

/-- Conversion of a `UInt64` to `UInt16` (the return type of `iSCSIKernelCreateSession`). -/
def toUInt16 (n : Nat) : Nat := n % 2 ^ 16

/-- Conversion of a `UInt64` to `UInt32`, the cast `(UInt32)output`. -/
def toUInt32 (n : Nat) : Nat := n % 2 ^ 32

/-- Conversion of a `UInt64` to `errno_t` (a 32-bit `int`), the cast `(errno_t)output`:
the low 32 bits read in two's complement. -/
def toErrno (n : Nat) : Int :=
  if n % 2 ^ 32 < 2 ^ 31 then ((n % 2 ^ 32 : Nat) : Int) else ((n % 2 ^ 32 : Nat) : Int) - 2 ^ 32

/-- Conversion of an `int` to `UInt64`, as in `const UInt64 inputs[] = {sessionId,domain}`. -/
def intToUInt64 (i : Int) : Nat := (i % 2 ^ 64).toNat

/-- The selectors of the driver's methods (the enumeration lives in a header that
is not part of the file; only the names are used). -/
inductive Selector where
  | kiSCSIOpenInitiator
  | kiSCSICloseInitiator
  | kiSCSICreateSession
  | kiSCSIReleaseSession
  | kiSCSISetSessionOptions
  | kiSCSIGetSessionOptions
  | kiSCSICreateConnection
  | kiSCSIReleaseConnection
  | kiSCSISendBHS
  | kiSCSISendData
  | kiSCSIRecvBHS
  | kiSCSIRecvData
  | kiSCSISetConnectionOptions
  | kiSCSIGetConnectionOptions
  | kiSCSIGetActiveConnection
  deriving DecidableEq, Repr

/-- The arguments of one `IOConnectCallMethod`. -/
structure EngineCall where
  /-- The handle, the static `connection` of the file. -/
  connection : Nat
  selector : Selector
  /-- The scalar inputs; `inputCnt` is the length of the list. -/
  input : List Nat
  /-- The content of the input structure, `none` for `NULL`. -/
  inputStruct : Option Buf
  /-- The size passed for the input structure. -/
  inputStructCnt : Nat
  /-- The value of `outputCnt` before the call, `none` when `NULL` is passed. -/
  outputCnt : Option Nat
  /-- The address of the output structure, `0` for `NULL`. -/
  outputStruct : Ptr
  /-- The value of the output structure size before the call, `none` when `NULL` is passed. -/
  outputStructCnt : Option Nat
  deriving DecidableEq, Repr

/-- What one `IOConnectCallMethod` leaves behind. -/
structure EngineReply where
  /-- The `kern_return_t` of the call. -/
  kernResult : Int
  /-- The value of the local `UInt64 output` after the call. -/
  output : Nat
  /-- The value of the local `UInt32 outputCnt` after the call. -/
  outputCnt : Nat
  /-- The content of the output structure after the call. -/
  outputStruct : Buf
  /-- The value of the output structure size after the call (the parameter is in/out). -/
  outputStructCnt : Nat
  deriving DecidableEq, Repr

/-- What the process does that is visible outside the file. -/
inductive Event where
  /-- A call that crosses the boundary, with what it left behind. -/
  | call (c : EngineCall) (r : EngineReply)
  /-- A call `iSCSIPDUDataCreate(length)` that returned `p`. -/
  | create (length : Nat) (p : Ptr)
  /-- A call of `iSCSIPDUDataRelease` on a slot that holds `p`. -/
  | release (p : Ptr)
  /-- A call `IOServiceGetMatchingService` that returned `service`. -/
  | getMatchingService (service : Nat)
  /-- A call `IOServiceOpen(service,...)` with its result and the handle it left. -/
  | serviceOpen (service : Nat) (kernResult : Int) (connection : Nat)
  deriving DecidableEq, Repr

/-- The history of the process. -/
abbrev Trace := List Event

/-- Everything the file uses and does not define: the constants and sizes of the
headers, the operating system, the driver, and the helpers of `iSCSIPDUUser.h`. -/
structure Env where
  /-- The constant `kiSCSIInvalidSessionId` of `iSCSIKernelInterface.h`. -/
  kiSCSIInvalidSessionId : Nat
  /-- The constant `kiSCSIInvalidConnectionId` of `iSCSIKernelInterface.h`. -/
  kiSCSIInvalidConnectionId : Nat
  /-- The size `sizeof(struct iSCSISessionOptions)`. -/
  sizeofSessionOptions : Nat
  /-- The size `sizeof(struct iSCSIConnectionOptions)`. -/
  sizeofConnectionOptions : Nat
  /-- The size `sizeof(iSCSIPDUInitiatorBHS)`. -/
  sizeofInitiatorBHS : Nat
  /-- The size `sizeof(iSCSIPDUTargetBHS)`. -/
  sizeofTargetBHS : Nat
  /-- The service `IOServiceGetMatchingService` finds, `IO_OBJECT_NULL` for none. -/
  IOServiceGetMatchingService : Trace → Nat
  /-- The result of `IOServiceOpen` on a service, given the handle held before:
  the return code and the handle held after. -/
  IOServiceOpen : Trace → Nat → Nat → Int × Nat
  /-- The driver. -/
  engine : Trace → EngineCall → EngineReply
  /-- The helper `iSCSIPDUGetPaddedDataSegmentLength` of `iSCSIPDUUser.h`, on the
  content of a header. -/
  iSCSIPDUGetPaddedDataSegmentLength : Buf → Nat
  /-- The helper `iSCSIPDUDataCreate` of `iSCSIPDUUser.h`: the address of the new
  buffer, `NULL` when the allocation fails. -/
  iSCSIPDUDataCreate : Trace → Nat → Ptr
  /-- The helper `iSCSIPDUDataRelease` of `iSCSIPDUUser.h` releases the buffer held
  in the slot it is given; this is the value it leaves in the slot. -/
  iSCSIPDUDataRelease : Ptr → Ptr

/-- The state of the process: the two statics of the file and the history. -/
structure World where
  /-- The static `service`. -/
  service : Nat
  /-- The static `connection`. -/
  connection : Nat
  trace : Trace
  deriving DecidableEq, Repr

/-- The call `IOConnectCallMethod` on the static `connection`. -/
def IOConnectCallMethod (env : Env) (selector : Selector) (input : List Nat)
    (inputStruct : Option Buf) (inputStructCnt : Nat) (outputCnt : Option Nat)
    (outputStruct : Ptr) (outputStructCnt : Option Nat) (w : World) : EngineReply × World :=
  let c : EngineCall :=
    { connection := w.connection, selector := selector, input := input,
      inputStruct := inputStruct, inputStructCnt := inputStructCnt, outputCnt := outputCnt,
      outputStruct := outputStruct, outputStructCnt := outputStructCnt }
  let r := env.engine w.trace c
  (r, { w with trace := w.trace ++ [Event.call c r] })

/-- The call `IOConnectCallScalarMethod`: no structures. -/
def IOConnectCallScalarMethod (env : Env) (selector : Selector) (input : List Nat)
    (outputCnt : Option Nat) (w : World) : EngineReply × World :=
  IOConnectCallMethod env selector input none 0 outputCnt NULL none w

/-- The call `IOConnectCallStructMethod`: no scalars. -/
def IOConnectCallStructMethod (env : Env) (selector : Selector)
    (inputStruct : Option Buf) (inputStructCnt : Nat)
    (outputStruct : Ptr) (outputStructCnt : Option Nat) (w : World) : EngineReply × World :=
  IOConnectCallMethod env selector [] inputStruct inputStructCnt none outputStruct outputStructCnt w

/-- The call `iSCSIPDUDataCreate(length)`, recorded in the history. -/
def iSCSIPDUDataCreate (env : Env) (length : Nat) (w : World) : Ptr × World :=
  let p := env.iSCSIPDUDataCreate w.trace length
  (p, { w with trace := w.trace ++ [Event.create length p] })

/-- The call `iSCSIPDUDataRelease(data)` on a slot that holds `p`, recorded in the
history; the first component is the value of the slot after the call. -/
def iSCSIPDUDataRelease (env : Env) (p : Ptr) (w : World) : Ptr × World :=
  (env.iSCSIPDUDataRelease p, { w with trace := w.trace ++ [Event.release p] })

/-- The function `iSCSIKernelInitialize`, lines 19-53. -/
def iSCSIKernelInitialize (env : Env) (w : World) : Int × World :=
  let service := env.IOServiceGetMatchingService w.trace
  let w1 : World :=
    { w with service := service, trace := w.trace ++ [Event.getMatchingService service] }
  if service = IO_OBJECT_NULL then
    (kIOReturnNotFound, w1)
  else
    let opened := env.IOServiceOpen w1.trace service w1.connection
    let kernResult := opened.1
    let w2 : World :=
      { w1 with connection := opened.2,
                trace := w1.trace ++ [Event.serviceOpen service kernResult opened.2] }
    -- `if(kernResult != kIOReturnSuccess) { }`: the body holds a comment and nothing else
    let w3 : World := if kernResult ≠ kIOReturnSuccess then w2 else w2
    let r := IOConnectCallScalarMethod env Selector.kiSCSIOpenInitiator [] none w3
    (r.1.kernResult, r.2)

/-- The function `iSCSIKernelCreateSession`, lines 71-93.  The return type is
`UInt16`, `return output` converts the `UInt64`. -/
def iSCSIKernelCreateSession (env : Env) (w : World) : Nat × World :=
  let expOutputCnt := 1
  let r := IOConnectCallScalarMethod env Selector.kiSCSICreateSession [] (some 1) w
  if r.1.kernResult = kIOReturnSuccess then
    if r.1.outputCnt = expOutputCnt then
      (toUInt16 r.1.output, r.2)
    else
      (env.kiSCSIInvalidSessionId, r.2)
  else
    (env.kiSCSIInvalidSessionId, r.2)

/-- The function `iSCSIKernelReleaseSession`, lines 98-109. -/
def iSCSIKernelReleaseSession (env : Env) (sessionId : Nat) (w : World) : World :=
  if sessionId = env.kiSCSIInvalidSessionId then
    w
  else
    (IOConnectCallScalarMethod env Selector.kiSCSIReleaseSession [sessionId] none w).2

/-- The function `iSCSIKernelSetSessionOptions`, lines 115-131; `options` is the
content of the caller's structure, `none` for a `NULL` pointer. -/
def iSCSIKernelSetSessionOptions (env : Env) (sessionId : Nat) (options : Option Buf)
    (w : World) : Int × World :=
  if sessionId = env.kiSCSIInvalidSessionId ∨ options = none then
    (EINVAL, w)
  else
    let r := IOConnectCallMethod env Selector.kiSCSISetSessionOptions [sessionId]
      options env.sizeofSessionOptions none NULL none w
    if r.1.kernResult = kIOReturnSuccess then
      (0, r.2)
    else
      ( EIO, r.2)

/-- The function `iSCSIKernelGetSessionOptions`, lines 138-155; `options` is the
address of the caller's structure. -/
def iSCSIKernelGetSessionOptions (env : Env) (sessionId : Nat) (options : Ptr)
    (w : World) : Int × World :=
  if sessionId = env.kiSCSIInvalidSessionId ∨ options = NULL then
    (EINVAL, w)
  else
    let optionsSize := env.sizeofSessionOptions
    let r := IOConnectCallMethod env Selector.kiSCSIGetSessionOptions [sessionId]
      none 0 none options (some optionsSize) w
    if r.1.kernResult = kIOReturnSuccess then
      (0, r.2)
    else
      ( EIO, r.2)

/-- The function `iSCSIKernelCreateConnection`, lines 164-192; the two addresses
are the contents of the caller's `struct sockaddr`, `none` for a `NULL` pointer. -/
def iSCSIKernelCreateConnection (env : Env) (sessionId : Nat) (domain : Int)
    (targetAddress hostAddress : Option Buf) (w : World) : Nat × World :=
  if targetAddress = none ∨ hostAddress = none ∨ sessionId = env.kiSCSIInvalidSessionId then
    (env.kiSCSIInvalidConnectionId, w)
  else
    let inputs := [sessionId, intToUInt64 domain]
    let inputStructCnt := 2
    let addresses : Buf :=
      (targetAddress.getD []).take sizeofSockaddr ++ (hostAddress.getD []).take sizeofSockaddr
    let r := IOConnectCallMethod env Selector.kiSCSICreateConnection inputs
      (some addresses) (inputStructCnt * sizeofSockaddr) (some 1) NULL none w
    if r.1.kernResult = kIOReturnSuccess then
      (toUInt32 r.1.output, r.2)
    else
      (env.kiSCSIInvalidConnectionId, r.2)

/-- The function `iSCSIKernelReleaseConnection`, lines 197-208. -/
def iSCSIKernelReleaseConnection (env : Env) (sessionId connectionId : Nat)
    (w : World) : World :=
  if sessionId = env.kiSCSIInvalidSessionId ∨
      connectionId = env.kiSCSIInvalidConnectionId then
    w
  else
    (IOConnectCallScalarMethod env Selector.kiSCSIReleaseConnection
      [sessionId, connectionId] none w).2

/-- The function `iSCSIKernelSend`, lines 218-253; `bhs` and `data` are the
contents behind the two pointers, `none` for a `NULL` pointer. -/
def iSCSIKernelSend (env : Env) (sessionId connectionId : Nat) (bhs data : Option Buf)
    (length : Nat) (w : World) : Int × World :=
  if sessionId = env.kiSCSIInvalidSessionId ∨ bhs = none ∨ data = none ∨
      connectionId = env.kiSCSIInvalidConnectionId then
    (EINVAL, w)
  else
    let inputs := [sessionId, connectionId]
    let expOutputCnt := 1
    let r1 := IOConnectCallStructMethod env Selector.kiSCSISendBHS bhs
      env.sizeofInitiatorBHS NULL none w
    if r1.1.kernResult ≠ kIOReturnSuccess then
      (EINVAL, r1.2)
    else
      let r2 := IOConnectCallMethod env Selector.kiSCSISendData inputs data length
        (some 1) NULL none r1.2
      if r2.1.kernResult = kIOReturnSuccess then
        if r2.1.outputCnt = expOutputCnt then
          (toErrno r2.1.output, r2.2)
        else
          (EINVAL, r2.2)
      else
        (EINVAL, r2.2)

/-- What `iSCSIKernelRecv` leaves to its caller: the return value and the values
of the two slots `*data` and `*length`. -/
structure RecvResult where
  err : Int
  data : Ptr
  length : Nat
  deriving DecidableEq, Repr

/-- The function `iSCSIKernelRecv`, lines 262-316; `bhs` is the address of the
caller's header, `data` and `length` are the values the two slots `*data` and
`*length` hold before the call. -/
def iSCSIKernelRecv (env : Env) (sessionId connectionId : Nat) (bhs : Ptr)
    (data : Ptr) (length : Nat) (w : World) : RecvResult × World :=
  if sessionId = env.kiSCSIInvalidSessionId ∨
      connectionId = env.kiSCSIInvalidConnectionId ∨ bhs = NULL then
    ({ err := EINVAL, data := data, length := length }, w)
  else
    let inputs := [sessionId, connectionId]
    let expOutputCnt := 1
    let bhsLength := env.sizeofTargetBHS
    let r1 := IOConnectCallMethod env Selector.kiSCSIRecvBHS inputs none 0
      (some 1) bhs (some bhsLength) w
    if r1.1.kernResult ≠ kIOReturnSuccess ∨ r1.1.outputCnt ≠ expOutputCnt ∨
        r1.1.output ≠ 0 then
      ({ err := EIO, data := data, length := length }, r1.2)
    else
      let length1 := env.iSCSIPDUGetPaddedDataSegmentLength r1.1.outputStruct
      if length1 = 0 then
        ({ err := 0, data := data, length := length1 }, r1.2)
      else
        let a := iSCSIPDUDataCreate env length1 r1.2
        if a.1 = NULL then
          ({ err := EIO, data := a.1, length := length1 }, a.2)
        else
          let r2 := IOConnectCallMethod env Selector.kiSCSIRecvData inputs none 0
            (some r1.1.outputCnt) a.1 (some length1) a.2
          if r2.1.kernResult = kIOReturnSuccess then
            if r2.1.outputCnt = expOutputCnt ∧ r2.1.output = 0 then
              ({ err := 0, data := a.1, length := r2.1.outputStructCnt }, r2.2)
            else
              let released := iSCSIPDUDataRelease env a.1 r2.2
              ({ err := EIO, data := released.1, length := r2.1.outputStructCnt }, released.2)
          else
            let released := iSCSIPDUDataRelease env a.1 r2.2
            ({ err := EIO, data := released.1, length := r2.1.outputStructCnt }, released.2)

/-- The function `iSCSIKernelSetConnectionOptions`, lines 324-342. -/
def iSCSIKernelSetConnectionOptions (env : Env) (sessionId connectionId : Nat)
    (options : Option Buf) (w : World) : Int × World :=
  if sessionId = env.kiSCSIInvalidSessionId ∨
      connectionId = env.kiSCSIInvalidConnectionId ∨ options = none then
    (EINVAL, w)
  else
    let r := IOConnectCallMethod env Selector.kiSCSISetConnectionOptions
      [sessionId, connectionId] options env.sizeofConnectionOptions none NULL none w
    if r.1.kernResult = kIOReturnSuccess then
      (0, r.2)
    else
      ( EIO, r.2)

/-- The function `iSCSIKernelGetConnectionOptions`, lines 350-370. -/
def iSCSIKernelGetConnectionOptions (env : Env) (sessionId connectionId : Nat)
    (options : Ptr) (w : World) : Int × World :=
  if sessionId = env.kiSCSIInvalidSessionId ∨
      connectionId = env.kiSCSIInvalidConnectionId ∨ options = NULL then
    (EINVAL, w)
  else
    let optionsSize := env.sizeofConnectionOptions
    let r := IOConnectCallMethod env Selector.kiSCSIGetConnectionOptions
      [sessionId, connectionId] none 0 none options (some optionsSize) w
    if r.1.kernResult = kIOReturnSuccess then
      (0, r.2)
    else
      ( EIO, r.2)

/-- The function `iSCSIKernelGetActiveConnection`, lines 377-398. -/
def iSCSIKernelGetActiveConnection (env : Env) (sessionId : Nat) (w : World) : Nat × World :=
  if sessionId = env.kiSCSIInvalidSessionId then
    (env.kiSCSIInvalidConnectionId, w)
  else
    let expOutputCnt := 1
    let r := IOConnectCallScalarMethod env Selector.kiSCSIGetActiveConnection [sessionId]
      (some 1) w
    if r.1.kernResult = kIOReturnSuccess then
      if r.1.outputCnt = expOutputCnt then
        (toUInt32 r.1.output, r.2)
      else
        (env.kiSCSIInvalidConnectionId, r.2)
    else
      (env.kiSCSIInvalidConnectionId, r.2)

/-- The calls across the boundary in a history, in order. -/
def engineCalls (t : Trace) : List EngineCall :=
  t.filterMap fun e => match e with
    | Event.call c _ => some c
    | _ => none

/-- The allocation requests in a history: the length asked for and the address returned. -/
def allocations (t : Trace) : List (Nat × Ptr) :=
  t.filterMap fun e => match e with
    | Event.create n p => some (n, p)
    | _ => none

/-- The buffers released in a history, in order. -/
def releases (t : Trace) : List Ptr :=
  t.filterMap fun e => match e with
    | Event.release p => some p
    | _ => none

/-- The buffers a history leaves live: allocated (not `NULL`) and not released since. -/
def liveBuffers : Trace → List Ptr
  | [] => []
  | Event.create _ p :: t => if p = NULL then liveBuffers t else
      if p ∈ releases t then liveBuffers t else p :: liveBuffers t
  | _ :: t => liveBuffers t

/-- What happened between two states of the process. -/
def eventsSince (w w' : World) : Trace := w'.trace.drop w.trace.length

/-- The header probe `iSCSIKernelRecv` is expected to issue: selector
`kiSCSIRecvBHS`, the two identifiers as scalars, room for one scalar back, the
caller's header as destination with the size of the header structure. -/
def recvBHSCall (env : Env) (sessionId connectionId : Nat) (bhs : Ptr) (w : World) :
    EngineCall :=
  { connection := w.connection, selector := Selector.kiSCSIRecvBHS,
    input := [sessionId, connectionId], inputStruct := none, inputStructCnt := 0,
    outputCnt := some 1, outputStruct := bhs, outputStructCnt := some env.sizeofTargetBHS }

/-- What the driver answers to the header probe. -/
def recvBHSReply (env : Env) (sessionId connectionId : Nat) (bhs : Ptr) (w : World) :
    EngineReply :=
  env.engine w.trace (recvBHSCall env sessionId connectionId bhs w)

/-- The header probe succeeded: return code success, one scalar, status zero. -/
def probeOk (r : EngineReply) : Prop :=
  r.kernResult = kIOReturnSuccess ∧ r.outputCnt = 1 ∧ r.output = 0

instance (r : EngineReply) : Decidable (probeOk r) := by
  unfold probeOk; infer_instance

/-- The computed data length `L`: the padded data-segment length of the probed header. -/
def recvLength (env : Env) (sessionId connectionId : Nat) (bhs : Ptr) (w : World) : Nat :=
  env.iSCSIPDUGetPaddedDataSegmentLength (recvBHSReply env sessionId connectionId bhs w).outputStruct

/-- The history when the allocation is asked for: the probe has been made. -/
def traceAfterProbe (env : Env) (sessionId connectionId : Nat) (bhs : Ptr) (w : World) :
    Trace :=
  w.trace ++ [Event.call (recvBHSCall env sessionId connectionId bhs w)
    (recvBHSReply env sessionId connectionId bhs w)]

/-- What the allocator answers when asked for `L` bytes after the probe. -/
def recvBuffer (env : Env) (sessionId connectionId : Nat) (bhs : Ptr) (w : World) : Ptr :=
  env.iSCSIPDUDataCreate (traceAfterProbe env sessionId connectionId bhs w)
    (recvLength env sessionId connectionId bhs w)

/-- The data fetch `iSCSIKernelRecv` is expected to issue: selector
`kiSCSIRecvData`, the two identifiers as scalars, room for one scalar back, the
new buffer as destination with the computed length as its size. -/
def recvDataCall (env : Env) (sessionId connectionId : Nat) (bhs : Ptr) (w : World) :
    EngineCall :=
  { connection := w.connection, selector := Selector.kiSCSIRecvData,
    input := [sessionId, connectionId], inputStruct := none, inputStructCnt := 0,
    outputCnt := some 1, outputStruct := recvBuffer env sessionId connectionId bhs w,
    outputStructCnt := some (recvLength env sessionId connectionId bhs w) }

/-- What the driver answers to the data fetch. -/
def recvDataReply (env : Env) (sessionId connectionId : Nat) (bhs : Ptr) (w : World) :
    EngineReply :=
  env.engine
    (traceAfterProbe env sessionId connectionId bhs w ++
      [Event.create (recvLength env sessionId connectionId bhs w)
        (recvBuffer env sessionId connectionId bhs w)])
    (recvDataCall env sessionId connectionId bhs w)

/-- The arguments `iSCSIKernelRecv` requires: two valid identifiers and a header destination. -/
def recvArgsValid (env : Env) (sessionId connectionId : Nat) (bhs : Ptr) : Prop :=
  sessionId ≠ env.kiSCSIInvalidSessionId ∧
    connectionId ≠ env.kiSCSIInvalidConnectionId ∧ bhs ≠ NULL

/-- A driver for examples: the reply depends on the selector only. The sentinels
are `0`, the value the comments of the file give for "could not be created". -/
def exampleEnv (reply : Selector → EngineReply) (padded : Buf → Nat) (buffer : Ptr)
    (service : Nat) (opened : Int × Nat) : Env :=
  { kiSCSIInvalidSessionId := 0
    kiSCSIInvalidConnectionId := 0
    sizeofSessionOptions := 8
    sizeofConnectionOptions := 8
    sizeofInitiatorBHS := 48
    sizeofTargetBHS := 48
    IOServiceGetMatchingService := fun _ => service
    IOServiceOpen := fun _ _ _ => opened
    engine := fun _ c => reply c.selector
    iSCSIPDUGetPaddedDataSegmentLength := padded
    iSCSIPDUDataCreate := fun _ _ => buffer
    iSCSIPDUDataRelease := fun _ => NULL }

/-- A reply: the call succeeded, one scalar `output`, the structure `bytes`. -/
def okReply (output : Nat) (bytes : Buf) : EngineReply :=
  { kernResult := kIOReturnSuccess, output := output, outputCnt := 1,
    outputStruct := bytes, outputStructCnt := bytes.length }

/-- A process that has done nothing yet. -/
def freshWorld : World := { service := 0, connection := 0, trace := [] }

/-- Modelled from the spec: `iSCSIPDUGetPaddedDataSegmentLength` is declared in
`iSCSIPDUUser.h`, which is not among the sources.  The spec has receive "compute
the data length from the header's data-segment-length field plus protocol padding
to the required alignment boundary", and its example pads 10 bytes to 12 "for
4-byte alignment".  The layout of the header is not given, so the field is read
through a parameter. -/
def paddedDataSegmentLength (dataSegmentLength : Buf → Nat) (bhs : Buf) : Nat :=
  4 * ((dataSegmentLength bhs + 3) / 4)

/-- For examples: the data-segment-length field as RFC 3720 lays it out, bytes 5 to 7
of the header, most significant first. -/
def dataSegmentLengthField (bhs : Buf) : Nat :=
  bhs.getD 5 0 * 65536 + bhs.getD 6 0 * 256 + bhs.getD 7 0

/-- For examples: a 48-byte header, all zero but for the data-segment length. -/
def headerWithLength (n : Nat) : Buf :=
  List.replicate 5 0 ++ [n / 65536 % 256, n / 256 % 256, n % 256] ++ List.replicate 40 0

/-- For examples: the driver answers the header probe with a header that announces
`n` bytes of data and status zero, and every other call with `other`. -/
def replyWithHeader (n : Nat) (other : EngineReply) : Selector → EngineReply
  | Selector.kiSCSIRecvBHS => okReply 0 (headerWithLength n)
  | _ => other

/-- For examples: a driver that is asked for the data of a header announcing 10
bytes (12 with padding) and reports back that it wrote 8 bytes, with status zero. -/
def shortFetchEnv : Env :=
  exampleEnv
    (replyWithHeader 10
      { kernResult := kIOReturnSuccess, output := 0, outputCnt := 1,
        outputStruct := List.replicate 8 255, outputStructCnt := 8 })
    (paddedDataSegmentLength dataSegmentLengthField) 4096 1 (kIOReturnSuccess, 5)

/-- For examples: a driver that is asked for the data of a header announcing 10
bytes (12 with padding) and fills the 12 bytes, with status zero. -/
def fullFetchEnv : Env :=
  exampleEnv (replyWithHeader 10 (okReply 0 (List.replicate 12 255)))
    (paddedDataSegmentLength dataSegmentLengthField) 4096 1 (kIOReturnSuccess, 5)

/-- The `kIOReturnError` of `IOReturn.h`: `0xe00002bc` read as a 32-bit `int`. -/
def kIOReturnError : Int := -536870212

/-- A reply: the call failed. -/
def failedReply : EngineReply :=
  { kernResult := kIOReturnError, output := 0, outputCnt := 0, outputStruct := [],
    outputStructCnt := 0 }

instance (env : Env) (sessionId connectionId : Nat) (bhs : Ptr) :
    Decidable (recvArgsValid env sessionId connectionId bhs) := by
  unfold recvArgsValid; infer_instance

/-- The call `iSCSIKernelSetSessionOptions` is expected to issue: the session as
the one scalar, the options with the size of the options structure as input. -/
def setSessionOptionsCall (env : Env) (sessionId : Nat) (options : Option Buf) (w : World) :
    EngineCall :=
  { connection := w.connection, selector := Selector.kiSCSISetSessionOptions,
    input := [sessionId], inputStruct := options, inputStructCnt := env.sizeofSessionOptions,
    outputCnt := none, outputStruct := NULL, outputStructCnt := none }

/-- The call `iSCSIKernelGetSessionOptions` is expected to issue: the session as
the one scalar, the caller's buffer with the size of the options structure as output. -/
def getSessionOptionsCall (env : Env) (sessionId : Nat) (options : Ptr) (w : World) :
    EngineCall :=
  { connection := w.connection, selector := Selector.kiSCSIGetSessionOptions,
    input := [sessionId], inputStruct := none, inputStructCnt := 0,
    outputCnt := none, outputStruct := options,
    outputStructCnt := some env.sizeofSessionOptions }

/-- The call `iSCSIKernelSetConnectionOptions` is expected to issue. -/
def setConnectionOptionsCall (env : Env) (sessionId connectionId : Nat)
    (options : Option Buf) (w : World) : EngineCall :=
  { connection := w.connection, selector := Selector.kiSCSISetConnectionOptions,
    input := [sessionId, connectionId], inputStruct := options,
    inputStructCnt := env.sizeofConnectionOptions,
    outputCnt := none, outputStruct := NULL, outputStructCnt := none }

/-- The call `iSCSIKernelGetConnectionOptions` is expected to issue. -/
def getConnectionOptionsCall (env : Env) (sessionId connectionId : Nat)
    (options : Ptr) (w : World) : EngineCall :=
  { connection := w.connection, selector := Selector.kiSCSIGetConnectionOptions,
    input := [sessionId, connectionId], inputStruct := none, inputStructCnt := 0,
    outputCnt := none, outputStruct := options,
    outputStructCnt := some env.sizeofConnectionOptions }

/-- The outcome of an options function that made the call `c`: `0` when the call
returned success, `EIO` when it did not, and the call added to the history. -/
def afterOneCall (env : Env) (c : EngineCall) (w : World) : Int × World :=
  (if (env.engine w.trace c).kernResult = kIOReturnSuccess then 0 else EIO,
    { w with trace := w.trace ++ [Event.call c (env.engine w.trace c)] })

/-- The header call `iSCSIKernelSend` is expected to issue: selector
`kiSCSISendBHS`, no scalars, the header with the size of the header structure. -/
def sendBHSCall (env : Env) (bhs : Option Buf) (w : World) : EngineCall :=
  { connection := w.connection, selector := Selector.kiSCSISendBHS,
    input := [], inputStruct := bhs, inputStructCnt := env.sizeofInitiatorBHS,
    outputCnt := none, outputStruct := NULL, outputStructCnt := none }

/-- What the driver answers to the header call of a send. -/
def sendBHSReply (env : Env) (bhs : Option Buf) (w : World) : EngineReply :=
  env.engine w.trace (sendBHSCall env bhs w)

/-- The data call `iSCSIKernelSend` is expected to issue: selector
`kiSCSISendData`, the two identifiers as scalars, the data with its length, room
for one scalar back. -/
def sendDataCall (sessionId connectionId : Nat) (data : Option Buf) (length : Nat)
    (w : World) : EngineCall :=
  { connection := w.connection, selector := Selector.kiSCSISendData,
    input := [sessionId, connectionId], inputStruct := data, inputStructCnt := length,
    outputCnt := some 1, outputStruct := NULL, outputStructCnt := none }

/-- What the driver answers to the data call of a send, made after the header call. -/
def sendDataReply (env : Env) (sessionId connectionId : Nat) (bhs data : Option Buf)
    (length : Nat) (w : World) : EngineReply :=
  env.engine (w.trace ++ [Event.call (sendBHSCall env bhs w) (sendBHSReply env bhs w)])
    (sendDataCall sessionId connectionId data length w)

/-- The arguments `iSCSIKernelSend` requires: two valid identifiers, a header and data. -/
def sendArgsValid (env : Env) (sessionId connectionId : Nat) (bhs data : Option Buf) : Prop :=
  sessionId ≠ env.kiSCSIInvalidSessionId ∧ bhs ≠ none ∧ data ≠ none ∧
    connectionId ≠ env.kiSCSIInvalidConnectionId

instance (env : Env) (sessionId connectionId : Nat) (bhs data : Option Buf) :
    Decidable (sendArgsValid env sessionId connectionId bhs data) := by
  unfold sendArgsValid; infer_instance

/-- The call `iSCSIKernelCreateSession` is expected to issue: selector
`kiSCSICreateSession`, no input, room for one scalar back. -/
def createSessionCall (w : World) : EngineCall :=
  { connection := w.connection, selector := Selector.kiSCSICreateSession,
    input := [], inputStruct := none, inputStructCnt := 0,
    outputCnt := some 1, outputStruct := NULL, outputStructCnt := none }

/-- What the driver answers to the create-session call. -/
def createSessionReply (env : Env) (w : World) : EngineReply :=
  env.engine w.trace (createSessionCall w)

/-- For examples: a driver that answers every call with success, one scalar `output`. -/
def constantEnv (output : Nat) : Env :=
  exampleEnv (fun _ => okReply output []) (fun _ => 0) 4096 1 (kIOReturnSuccess, 5)

/-- For examples: the service is found, `IOServiceOpen` fails and leaves the
handle `5` of an earlier open in place, and the driver answers every call on
that handle with success. -/
def openFailsEnv : Env :=
  exampleEnv (fun _ => okReply 0 []) (fun _ => 0) 4096 1 (kIOReturnError, 5)

/-- For examples: a process that holds the handle `5` from an earlier open. -/
def openedWorld : World := { service := 1, connection := 5, trace := [] }

/-- For examples: a driver that fails every call. -/
def failingEnv : Env :=
  exampleEnv (fun _ => failedReply) (paddedDataSegmentLength dataSegmentLengthField) 4096 1
    (kIOReturnSuccess, 5)

/-- For examples: the probed header announces no data. -/
def headerOnlyEnv : Env :=
  exampleEnv (replyWithHeader 0 failedReply) (paddedDataSegmentLength dataSegmentLengthField)
    4096 1 (kIOReturnSuccess, 5)

/-- For examples: the probed header announces 10 bytes and the allocation fails. -/
def noMemoryEnv : Env :=
  exampleEnv (replyWithHeader 10 (okReply 0 (List.replicate 12 255)))
    (paddedDataSegmentLength dataSegmentLengthField) NULL 1 (kIOReturnSuccess, 5)

/-- For examples: the probed header announces 10 bytes, the allocation succeeds
and the data fetch fails. -/
def fetchFailsEnv : Env :=
  exampleEnv (replyWithHeader 10 failedReply)
    (paddedDataSegmentLength dataSegmentLengthField) 4096 1 (kIOReturnSuccess, 5)

/-- C1: when the session identifier is the invalid sentinel, `releaseSession`,
`setSessionOptions`, `getSessionOptions`, `createConnection` and
`getActiveConnection` leave the process as it was (no boundary call, nothing
recorded) and return their invalid-argument outcome; when the session or the
connection identifier is the invalid sentinel, so do `releaseConnection`,
`setConnectionOptions`, `getConnectionOptions`, `send` and `receive`: `EINVAL` for
the functions that return an `errno_t`, the invalid-connection sentinel for
`createConnection` and `getActiveConnection`, nothing at all for the two releases. -/
theorem invalid_id_no_boundary_call (env : Env) (w : World) (sessionId connectionId : Nat)
    (domain : Int) (optionsIn targetAddress hostAddress bhsIn dataIn : Option Buf)
    (optionsOut bhsOut dataSlot : Ptr) (length : Nat) :
    (sessionId = env.kiSCSIInvalidSessionId →
      iSCSIKernelReleaseSession env sessionId w = w ∧
      iSCSIKernelSetSessionOptions env sessionId optionsIn w = (EINVAL, w) ∧
      iSCSIKernelGetSessionOptions env sessionId optionsOut w = (EINVAL, w) ∧
      iSCSIKernelCreateConnection env sessionId domain targetAddress hostAddress w
        = (env.kiSCSIInvalidConnectionId, w) ∧
      iSCSIKernelGetActiveConnection env sessionId w = (env.kiSCSIInvalidConnectionId, w)) ∧
    (sessionId = env.kiSCSIInvalidSessionId ∨
        connectionId = env.kiSCSIInvalidConnectionId →
      iSCSIKernelReleaseConnection env sessionId connectionId w = w ∧
      iSCSIKernelSetConnectionOptions env sessionId connectionId optionsIn w = (EINVAL, w) ∧
      iSCSIKernelGetConnectionOptions env sessionId connectionId optionsOut w = (EINVAL, w) ∧
      iSCSIKernelSend env sessionId connectionId bhsIn dataIn length w = (EINVAL, w) ∧
      iSCSIKernelRecv env sessionId connectionId bhsOut dataSlot length w
        = ({ err := EINVAL, data := dataSlot, length := length }, w)) := by
  refine ⟨fun h => ?_, fun h => ?_⟩
  · subst h
    simp [iSCSIKernelReleaseSession, iSCSIKernelSetSessionOptions,
      iSCSIKernelGetSessionOptions, iSCSIKernelCreateConnection,
      iSCSIKernelGetActiveConnection]
  · rcases h with h | h
    · subst h
      simp [iSCSIKernelReleaseConnection, iSCSIKernelSetConnectionOptions,
        iSCSIKernelGetConnectionOptions, iSCSIKernelSend, iSCSIKernelRecv]
    · subst h
      simp [iSCSIKernelReleaseConnection, iSCSIKernelSetConnectionOptions,
        iSCSIKernelGetConnectionOptions, iSCSIKernelSend, iSCSIKernelRecv]

/-- The five ways through `iSCSIKernelRecv` once its arguments are valid. -/
theorem recv_cases (env : Env) (w : World) (sessionId connectionId : Nat) (bhs data : Ptr)
    (length : Nat) (hv : recvArgsValid env sessionId connectionId bhs) :
    let r1 := recvBHSReply env sessionId connectionId bhs w
    let L := recvLength env sessionId connectionId bhs w
    let p := recvBuffer env sessionId connectionId bhs w
    let r2 := recvDataReply env sessionId connectionId bhs w
    let probe := Event.call (recvBHSCall env sessionId connectionId bhs w) r1
    let fetch := Event.call (recvDataCall env sessionId connectionId bhs w) r2
    iSCSIKernelRecv env sessionId connectionId bhs data length w =
      if ¬ probeOk r1 then
        ({ err := EIO, data := data, length := length },
          { w with trace := w.trace ++ [probe] })
      else if L = 0 then
        ({ err := 0, data := data, length := 0 }, { w with trace := w.trace ++ [probe] })
      else if p = NULL then
        ({ err := EIO, data := NULL, length := L },
          { w with trace := w.trace ++ [probe, Event.create L p] })
      else if probeOk r2 then
        ({ err := 0, data := p, length := r2.outputStructCnt },
          { w with trace := w.trace ++ [probe, Event.create L p, fetch] })
      else
        ({ err := EIO, data := env.iSCSIPDUDataRelease p, length := r2.outputStructCnt },
          { w with trace := w.trace ++ [probe, Event.create L p, fetch, Event.release p] }) := by
  obtain ⟨hs, hc, hb⟩ := hv
  intro r1 L p r2 probe fetch
  have e1 : IOConnectCallMethod env Selector.kiSCSIRecvBHS [sessionId, connectionId] none 0
      (some 1) bhs (some env.sizeofTargetBHS) w = (r1, { w with trace := w.trace ++ [probe] }) :=
    rfl
  have e2 : iSCSIPDUDataCreate env L { w with trace := w.trace ++ [probe] }
      = (p, { w with trace := w.trace ++ [probe, Event.create L p] }) := by
    simp [iSCSIPDUDataCreate, p, L, recvBuffer, traceAfterProbe, probe, r1]
  have e3 : IOConnectCallMethod env Selector.kiSCSIRecvData [sessionId, connectionId] none 0
      (some 1) p (some L) { w with trace := w.trace ++ [probe, Event.create L p] }
      = (r2, { w with trace := w.trace ++ [probe, Event.create L p, fetch] }) := by
    simp [IOConnectCallMethod, r2, fetch, recvDataReply, recvDataCall, traceAfterProbe, probe,
      r1, L, p]
  have e4 : iSCSIPDUDataRelease env p
      { w with trace := w.trace ++ [probe, Event.create L p, fetch] }
      = (env.iSCSIPDUDataRelease p,
        { w with trace := w.trace ++ [probe, Event.create L p, fetch, Event.release p] }) := by
    simp [iSCSIPDUDataRelease]
  have hg : ¬ (sessionId = env.kiSCSIInvalidSessionId ∨
      connectionId = env.kiSCSIInvalidConnectionId ∨ bhs = NULL) := by
    simp [hs, hc, hb]
  unfold iSCSIKernelRecv
  rw [if_neg hg]
  simp only [e1]
  by_cases h1 : probeOk r1
  · obtain ⟨h1a, h1b, h1c⟩ := h1
    have hL : env.iSCSIPDUGetPaddedDataSegmentLength r1.outputStruct = L := rfl
    simp only [h1a, h1b, h1c, hL, ne_eq, not_true_eq_false, or_self, if_false, probeOk,
      and_self, not_true, e2]
    by_cases h2 : L = 0
    · simp [h2]
    · simp only [h2, if_false]
      by_cases h3 : p = NULL
      · simp [h3]
      · simp only [h3, if_false, e3, e4]
        by_cases h4 : r2.kernResult = kIOReturnSuccess
        · by_cases h5 : r2.outputCnt = 1 ∧ r2.output = 0
          · simp [h4, h5]
          · have : ¬ (r2.outputCnt = 1 ∧ r2.output = 0) := h5
            simp [h4, h5]
        · simp [h4]
  · have h1' : r1.kernResult ≠ kIOReturnSuccess ∨ r1.outputCnt ≠ 1 ∨ r1.output ≠ 0 := by
      unfold probeOk at h1
      by_contra hcon
      push_neg at hcon
      exact h1 hcon
    simp [h1, h1']

/-- The events between a state and the same state with more history are the added ones. -/
theorem eventsSince_append (w : World) (l : Trace) :
    eventsSince w { w with trace := w.trace ++ l } = l := by
  simp [eventsSince]

/-- Nothing happened between a state and itself. -/
theorem eventsSince_self (w : World) : eventsSince w w = [] := by
  simp [eventsSince]

/-- A failed probe, spelled out, is a probe that is not `probeOk`. -/
theorem not_probeOk_iff (r : EngineReply) :
    ¬ probeOk r ↔ (r.kernResult ≠ kIOReturnSuccess ∨ r.outputCnt ≠ 1 ∨ r.output ≠ 0) := by
  unfold probeOk
  constructor
  · intro h
    by_contra hcon
    push_neg at hcon
    exact h hcon
  · rintro h ⟨h1, h2, h3⟩
    rcases h with h | h | h
    · exact h h1
    · exact h h2
    · exact h h3

/-- C8: for a receive with valid arguments, if the header probe fails, or its
result count is not one, or its status scalar is not zero, then receive returns
`EIO` and leaves the caller's two slots alone, the probe is the only thing it
did (no allocation, no data fetch); and no receive whatsoever issues a data
fetch unless the first thing it did was a header probe that succeeded with count
one and status zero. -/
theorem recv_probe_failure (env : Env) (w : World) (sessionId connectionId : Nat)
    (bhs data : Ptr) (length : Nat) :
    (recvArgsValid env sessionId connectionId bhs →
      ((recvBHSReply env sessionId connectionId bhs w).kernResult ≠ kIOReturnSuccess ∨
        (recvBHSReply env sessionId connectionId bhs w).outputCnt ≠ 1 ∨
        (recvBHSReply env sessionId connectionId bhs w).output ≠ 0) →
      (iSCSIKernelRecv env sessionId connectionId bhs data length w).1
          = { err := EIO, data := data, length := length } ∧
        eventsSince w (iSCSIKernelRecv env sessionId connectionId bhs data length w).2
          = [Event.call (recvBHSCall env sessionId connectionId bhs w)
              (recvBHSReply env sessionId connectionId bhs w)] ∧
        allocations
          (eventsSince w (iSCSIKernelRecv env sessionId connectionId bhs data length w).2) = [] ∧
        ∀ c ∈ engineCalls
            (eventsSince w (iSCSIKernelRecv env sessionId connectionId bhs data length w).2),
          c.selector ≠ Selector.kiSCSIRecvData) ∧
    (∀ c ∈ engineCalls
        (eventsSince w (iSCSIKernelRecv env sessionId connectionId bhs data length w).2),
      c.selector = Selector.kiSCSIRecvData →
        probeOk (recvBHSReply env sessionId connectionId bhs w) ∧
        (eventsSince w (iSCSIKernelRecv env sessionId connectionId bhs data length w).2).head?
          = some (Event.call (recvBHSCall env sessionId connectionId bhs w)
              (recvBHSReply env sessionId connectionId bhs w))) := by
  constructor
  · intro hv hfail
    have h := recv_cases env w sessionId connectionId bhs data length hv
    simp only [] at h
    rw [h, if_pos ((not_probeOk_iff _).2 hfail)]
    simp [eventsSince_append, allocations, engineCalls, recvBHSCall]
  · intro c hc hsel
    by_cases hv : recvArgsValid env sessionId connectionId bhs
    · have h := recv_cases env w sessionId connectionId bhs data length hv
      simp only [] at h
      rw [h] at hc ⊢
      by_cases h1 : probeOk (recvBHSReply env sessionId connectionId bhs w)
      · refine ⟨h1, ?_⟩
        simp only [h1, not_true_eq_false, if_false]
        split_ifs <;> simp [eventsSince_append]
      · exfalso
        rw [if_pos h1] at hc
        simp [eventsSince_append, engineCalls, recvBHSCall] at hc
        rw [hc] at hsel
        simp at hsel
    · exfalso
      have hg : sessionId = env.kiSCSIInvalidSessionId ∨
          connectionId = env.kiSCSIInvalidConnectionId ∨ bhs = NULL := by
        unfold recvArgsValid at hv
        by_contra hcon
        push_neg at hcon
        exact hv hcon
      simp [iSCSIKernelRecv, hg, eventsSince_self, engineCalls] at hc

/-- C3: for a receive with valid arguments whose header probe succeeds and whose
header yields a padded data length of zero, receive returns success, reports
length `0` and leaves the data slot as the caller passed it (no buffer is
produced); the probe is the only thing it did: no allocation and no data fetch. -/
theorem recv_header_only (env : Env) (w : World) (sessionId connectionId : Nat)
    (bhs data : Ptr) (length : Nat)
    (hv : recvArgsValid env sessionId connectionId bhs)
    (hprobe : probeOk (recvBHSReply env sessionId connectionId bhs w))
    (hL : recvLength env sessionId connectionId bhs w = 0) :
    (iSCSIKernelRecv env sessionId connectionId bhs data length w).1
        = { err := 0, data := data, length := 0 } ∧
      eventsSince w (iSCSIKernelRecv env sessionId connectionId bhs data length w).2
        = [Event.call (recvBHSCall env sessionId connectionId bhs w)
            (recvBHSReply env sessionId connectionId bhs w)] ∧
      allocations
        (eventsSince w (iSCSIKernelRecv env sessionId connectionId bhs data length w).2) = [] ∧
      liveBuffers
        (eventsSince w (iSCSIKernelRecv env sessionId connectionId bhs data length w).2) = [] ∧
      ∀ c ∈ engineCalls
          (eventsSince w (iSCSIKernelRecv env sessionId connectionId bhs data length w).2),
        c.selector ≠ Selector.kiSCSIRecvData := by
  have h := recv_cases env w sessionId connectionId bhs data length hv
  simp only [] at h
  rw [h, if_neg (not_not.2 hprobe), if_pos hL]
  simp [eventsSince_append, allocations, engineCalls, liveBuffers, recvBHSCall]

/-- C9: for a receive with valid arguments whose header probe succeeds with a
computed data length `L > 0`, if the allocation of the `L` bytes fails then
receive returns `EIO`, and after the probe it did nothing but ask for the `L`
bytes: the probe is its only boundary call.  In the zero-length case receive
returns `0`, which is not `EIO`. -/
theorem recv_allocation_failure (env : Env) (w : World) (sessionId connectionId : Nat)
    (bhs data : Ptr) (length : Nat)
    (hv : recvArgsValid env sessionId connectionId bhs)
    (hprobe : probeOk (recvBHSReply env sessionId connectionId bhs w)) :
    (0 < recvLength env sessionId connectionId bhs w →
      recvBuffer env sessionId connectionId bhs w = NULL →
      (iSCSIKernelRecv env sessionId connectionId bhs data length w).1.err = EIO ∧
      eventsSince w (iSCSIKernelRecv env sessionId connectionId bhs data length w).2
        = [Event.call (recvBHSCall env sessionId connectionId bhs w)
            (recvBHSReply env sessionId connectionId bhs w),
           Event.create (recvLength env sessionId connectionId bhs w) NULL] ∧
      engineCalls
        (eventsSince w (iSCSIKernelRecv env sessionId connectionId bhs data length w).2)
        = [recvBHSCall env sessionId connectionId bhs w]) ∧
    (recvLength env sessionId connectionId bhs w = 0 →
      (iSCSIKernelRecv env sessionId connectionId bhs data length w).1.err = 0) ∧
    EIO ≠ 0 := by
  have h := recv_cases env w sessionId connectionId bhs data length hv
  simp only [] at h
  rw [h, if_neg (not_not.2 hprobe)]
  refine ⟨fun hL hp => ?_, fun hL => ?_, by decide⟩
  · rw [if_neg (Nat.pos_iff_ne_zero.1 hL), if_pos hp]
    simp [eventsSince_append, engineCalls, hp]
  · rw [if_pos hL]

/-- C2: for a receive with valid arguments whose header probe succeeds, whose
computed data length is `L > 0` and whose allocation succeeds, if the data fetch
fails, or returns a result count other than one, or a status that is not zero,
then receive returns `EIO`; it did four things, in order: the probe, the
allocation of `L` bytes, the data fetch into that buffer, the release of that
buffer; so the buffer is released exactly once, no buffer of this receive is
live when it returns, and the data slot holds what the release left there. -/
theorem recv_fetch_failure_releases (env : Env) (w : World) (sessionId connectionId : Nat)
    (bhs data : Ptr) (length : Nat)
    (hv : recvArgsValid env sessionId connectionId bhs)
    (hprobe : probeOk (recvBHSReply env sessionId connectionId bhs w))
    (hL : 0 < recvLength env sessionId connectionId bhs w)
    (halloc : recvBuffer env sessionId connectionId bhs w ≠ NULL)
    (hfail : (recvDataReply env sessionId connectionId bhs w).kernResult ≠ kIOReturnSuccess ∨
      (recvDataReply env sessionId connectionId bhs w).outputCnt ≠ 1 ∨
      (recvDataReply env sessionId connectionId bhs w).output ≠ 0) :
    (iSCSIKernelRecv env sessionId connectionId bhs data length w).1.err = EIO ∧
      eventsSince w (iSCSIKernelRecv env sessionId connectionId bhs data length w).2
        = [Event.call (recvBHSCall env sessionId connectionId bhs w)
            (recvBHSReply env sessionId connectionId bhs w),
           Event.create (recvLength env sessionId connectionId bhs w)
            (recvBuffer env sessionId connectionId bhs w),
           Event.call (recvDataCall env sessionId connectionId bhs w)
            (recvDataReply env sessionId connectionId bhs w),
           Event.release (recvBuffer env sessionId connectionId bhs w)] ∧
      (releases
        (eventsSince w (iSCSIKernelRecv env sessionId connectionId bhs data length w).2)).count
          (recvBuffer env sessionId connectionId bhs w) = 1 ∧
      liveBuffers
        (eventsSince w (iSCSIKernelRecv env sessionId connectionId bhs data length w).2) = [] ∧
      (iSCSIKernelRecv env sessionId connectionId bhs data length w).1.data
        = env.iSCSIPDUDataRelease (recvBuffer env sessionId connectionId bhs w) := by
  have h := recv_cases env w sessionId connectionId bhs data length hv
  simp only [] at h
  rw [h, if_neg (not_not.2 hprobe), if_neg (Nat.pos_iff_ne_zero.1 hL), if_neg halloc,
    if_neg ((not_probeOk_iff _).2 hfail)]
  simp [eventsSince_append, releases, liveBuffers, halloc]

/-- C4, as stated, fails: session 7, connection 42, the probed header announces 10
bytes, so `L = 12`; one buffer of 12 bytes is allocated and returned, the data
fetch succeeds with count one and status zero and reports 8 bytes written; receive
returns success and reports length 8, not `L`. -/
theorem recv_reported_length_counterexample :
    recvLength shortFetchEnv 7 42 1000 freshWorld = 12 ∧
    (iSCSIKernelRecv shortFetchEnv 7 42 1000 0 0 freshWorld).1
      = { err := 0, data := 4096, length := 8 } ∧
    allocations
      (eventsSince freshWorld (iSCSIKernelRecv shortFetchEnv 7 42 1000 0 0 freshWorld).2)
      = [(12, 4096)] ∧
    (iSCSIKernelRecv shortFetchEnv 7 42 1000 0 0 freshWorld).1.length
      ≠ recvLength shortFetchEnv 7 42 1000 freshWorld := by
  decide

/-- C4, amended: for every receive that returns success with a computed data
length `L > 0`, it did three things, in order: the probe, the allocation of one
buffer of exactly `L` bytes, the data fetch into that buffer with `L` as its size;
that buffer is the one left in the data slot and it is live; the length
reported is the size the data fetch reports back, hence `L` whenever the driver
reports the size it was given. -/
theorem recv_success_buffer (env : Env) (w : World) (sessionId connectionId : Nat)
    (bhs data : Ptr) (length : Nat)
    (herr : (iSCSIKernelRecv env sessionId connectionId bhs data length w).1.err = 0)
    (hL : 0 < recvLength env sessionId connectionId bhs w) :
    eventsSince w (iSCSIKernelRecv env sessionId connectionId bhs data length w).2
        = [Event.call (recvBHSCall env sessionId connectionId bhs w)
            (recvBHSReply env sessionId connectionId bhs w),
           Event.create (recvLength env sessionId connectionId bhs w)
            (recvBuffer env sessionId connectionId bhs w),
           Event.call (recvDataCall env sessionId connectionId bhs w)
            (recvDataReply env sessionId connectionId bhs w)] ∧
      allocations
        (eventsSince w (iSCSIKernelRecv env sessionId connectionId bhs data length w).2)
        = [(recvLength env sessionId connectionId bhs w,
            recvBuffer env sessionId connectionId bhs w)] ∧
      recvBuffer env sessionId connectionId bhs w ≠ NULL ∧
      (iSCSIKernelRecv env sessionId connectionId bhs data length w).1.data
        = recvBuffer env sessionId connectionId bhs w ∧
      liveBuffers
        (eventsSince w (iSCSIKernelRecv env sessionId connectionId bhs data length w).2)
        = [recvBuffer env sessionId connectionId bhs w] ∧
      (iSCSIKernelRecv env sessionId connectionId bhs data length w).1.length
        = (recvDataReply env sessionId connectionId bhs w).outputStructCnt ∧
      ((recvDataReply env sessionId connectionId bhs w).outputStructCnt
          = recvLength env sessionId connectionId bhs w →
        (iSCSIKernelRecv env sessionId connectionId bhs data length w).1.length
          = recvLength env sessionId connectionId bhs w) := by
  have hEINVAL : EINVAL ≠ 0 := by decide
  have hEIO : EIO ≠ 0 := by decide
  by_cases hv : recvArgsValid env sessionId connectionId bhs
  · have h := recv_cases env w sessionId connectionId bhs data length hv
    simp only [] at h
    rw [h] at herr ⊢
    by_cases h1 : probeOk (recvBHSReply env sessionId connectionId bhs w)
    · rw [if_neg (not_not.2 h1), if_neg (Nat.pos_iff_ne_zero.1 hL)] at herr ⊢
      by_cases h2 : recvBuffer env sessionId connectionId bhs w = NULL
      · rw [if_pos h2] at herr
        exact absurd herr hEIO
      · rw [if_neg h2] at herr ⊢
        by_cases h3 : probeOk (recvDataReply env sessionId connectionId bhs w)
        · rw [if_pos h3]
          simp [eventsSince_append, allocations, liveBuffers, releases, h2]
        · rw [if_neg h3] at herr
          exact absurd herr hEIO
    · rw [if_pos h1] at herr
      exact absurd herr hEIO
  · exfalso
    have hg : sessionId = env.kiSCSIInvalidSessionId ∨
        connectionId = env.kiSCSIInvalidConnectionId ∨ bhs = NULL := by
      unfold recvArgsValid at hv
      by_contra hcon
      push_neg at hcon
      exact hv hcon
    simp only [iSCSIKernelRecv, if_pos hg] at herr
    exact hEINVAL herr

/-- The example of C4: session 7, connection 42, the probed header announces 10
bytes; receive succeeds, allocates exactly one buffer, of 12 bytes, hands it
over, and reports length 12 when the driver fills the 12 bytes. -/
theorem recv_success_buffer_witness :
    (iSCSIKernelRecv fullFetchEnv 7 42 1000 0 0 freshWorld).1
      = { err := 0, data := 4096, length := 12 } ∧
    0 < recvLength fullFetchEnv 7 42 1000 freshWorld ∧
    allocations
      (eventsSince freshWorld (iSCSIKernelRecv fullFetchEnv 7 42 1000 0 0 freshWorld).2)
      = [(recvLength fullFetchEnv 7 42 1000 freshWorld,
          recvBuffer fullFetchEnv 7 42 1000 freshWorld)] ∧
    recvLength fullFetchEnv 7 42 1000 freshWorld = 12 ∧
    recvBuffer fullFetchEnv 7 42 1000 freshWorld = 4096 :=
  ⟨by decide, by decide,
    (recv_success_buffer fullFetchEnv freshWorld 7 42 1000 0 0 (by decide) (by decide)).2.1,
    by decide, by decide⟩

/-- A state with one more event is not the state. -/
theorem world_append_ne (w : World) (e : Event) :
    ({ w with trace := w.trace ++ [e] } : World) ≠ w := by
  intro h
  have ht := congrArg World.trace h
  simp at ht

/-- C10: each of `setSessionOptions`, `getSessionOptions`, `setConnectionOptions`
and `getConnectionOptions` returns `EINVAL` and leaves the process as it was (no
boundary call) if and only if a required identifier is the invalid sentinel or
the options pointer is null; otherwise it makes exactly one boundary call, with
the given identifier(s) as scalars and the size of the options structure, and
returns `0` if that call returns success and `EIO` if it does not. -/
theorem options_contract (env : Env) (w : World) (sessionId connectionId : Nat)
    (optionsIn : Option Buf) (optionsOut : Ptr) :
    ((iSCSIKernelSetSessionOptions env sessionId optionsIn w = (EINVAL, w) ↔
        (sessionId = env.kiSCSIInvalidSessionId ∨ optionsIn = none)) ∧
      (¬ (sessionId = env.kiSCSIInvalidSessionId ∨ optionsIn = none) →
        iSCSIKernelSetSessionOptions env sessionId optionsIn w
          = afterOneCall env (setSessionOptionsCall env sessionId optionsIn w) w)) ∧
    ((iSCSIKernelGetSessionOptions env sessionId optionsOut w = (EINVAL, w) ↔
        (sessionId = env.kiSCSIInvalidSessionId ∨ optionsOut = NULL)) ∧
      (¬ (sessionId = env.kiSCSIInvalidSessionId ∨ optionsOut = NULL) →
        iSCSIKernelGetSessionOptions env sessionId optionsOut w
          = afterOneCall env (getSessionOptionsCall env sessionId optionsOut w) w)) ∧
    ((iSCSIKernelSetConnectionOptions env sessionId connectionId optionsIn w = (EINVAL, w) ↔
        (sessionId = env.kiSCSIInvalidSessionId ∨
          connectionId = env.kiSCSIInvalidConnectionId ∨ optionsIn = none)) ∧
      (¬ (sessionId = env.kiSCSIInvalidSessionId ∨
          connectionId = env.kiSCSIInvalidConnectionId ∨ optionsIn = none) →
        iSCSIKernelSetConnectionOptions env sessionId connectionId optionsIn w
          = afterOneCall env
              (setConnectionOptionsCall env sessionId connectionId optionsIn w) w)) ∧
    ((iSCSIKernelGetConnectionOptions env sessionId connectionId optionsOut w = (EINVAL, w) ↔
        (sessionId = env.kiSCSIInvalidSessionId ∨
          connectionId = env.kiSCSIInvalidConnectionId ∨ optionsOut = NULL)) ∧
      (¬ (sessionId = env.kiSCSIInvalidSessionId ∨
          connectionId = env.kiSCSIInvalidConnectionId ∨ optionsOut = NULL) →
        iSCSIKernelGetConnectionOptions env sessionId connectionId optionsOut w
          = afterOneCall env
              (getConnectionOptionsCall env sessionId connectionId optionsOut w) w)) := by
  have key : ∀ (c : EngineCall), afterOneCall env c w ≠ (EINVAL, w) := by
    intro c h
    have h2 := congrArg Prod.snd h
    exact world_append_ne w _ h2
  refine ⟨?_, ?_, ?_, ?_⟩
  · by_cases hg : sessionId = env.kiSCSIInvalidSessionId ∨ optionsIn = none
    · simp [iSCSIKernelSetSessionOptions, hg]
    · have e : iSCSIKernelSetSessionOptions env sessionId optionsIn w
          = afterOneCall env (setSessionOptionsCall env sessionId optionsIn w) w := by
        simp only [iSCSIKernelSetSessionOptions, if_neg hg, IOConnectCallMethod, afterOneCall,
          setSessionOptionsCall]
        split_ifs <;> rfl
      refine ⟨⟨fun h => absurd (e ▸ h) (key _), fun h => absurd h hg⟩, fun _ => e⟩
  · by_cases hg : sessionId = env.kiSCSIInvalidSessionId ∨ optionsOut = NULL
    · simp [iSCSIKernelGetSessionOptions, hg]
    · have e : iSCSIKernelGetSessionOptions env sessionId optionsOut w
          = afterOneCall env (getSessionOptionsCall env sessionId optionsOut w) w := by
        simp only [iSCSIKernelGetSessionOptions, if_neg hg, IOConnectCallMethod, afterOneCall,
          getSessionOptionsCall]
        split_ifs <;> rfl
      refine ⟨⟨fun h => absurd (e ▸ h) (key _), fun h => absurd h hg⟩, fun _ => e⟩
  · by_cases hg : sessionId = env.kiSCSIInvalidSessionId ∨
        connectionId = env.kiSCSIInvalidConnectionId ∨ optionsIn = none
    · simp [iSCSIKernelSetConnectionOptions, hg]
    · have e : iSCSIKernelSetConnectionOptions env sessionId connectionId optionsIn w
          = afterOneCall env
              (setConnectionOptionsCall env sessionId connectionId optionsIn w) w := by
        simp only [iSCSIKernelSetConnectionOptions, if_neg hg, IOConnectCallMethod,
          afterOneCall, setConnectionOptionsCall]
        split_ifs <;> rfl
      refine ⟨⟨fun h => absurd (e ▸ h) (key _), fun h => absurd h hg⟩, fun _ => e⟩
  · by_cases hg : sessionId = env.kiSCSIInvalidSessionId ∨
        connectionId = env.kiSCSIInvalidConnectionId ∨ optionsOut = NULL
    · simp [iSCSIKernelGetConnectionOptions, hg]
    · have e : iSCSIKernelGetConnectionOptions env sessionId connectionId optionsOut w
          = afterOneCall env
              (getConnectionOptionsCall env sessionId connectionId optionsOut w) w := by
        simp only [iSCSIKernelGetConnectionOptions, if_neg hg, IOConnectCallMethod,
          afterOneCall, getConnectionOptionsCall]
        split_ifs <;> rfl
      refine ⟨⟨fun h => absurd (e ▸ h) (key _), fun h => absurd h hg⟩, fun _ => e⟩

/-- C5, as stated, fails: session 7, connection 42, both calls succeed, the data
call returns one scalar, the status `4294967296`; send returns `0`, not the status. -/
theorem send_status_counterexample :
    (sendBHSReply (constantEnv 4294967296) (some [1]) freshWorld).kernResult
      = kIOReturnSuccess ∧
    (sendDataReply (constantEnv 4294967296) 7 42 (some [1]) (some [2, 3]) 2
      freshWorld).kernResult = kIOReturnSuccess ∧
    (sendDataReply (constantEnv 4294967296) 7 42 (some [1]) (some [2, 3]) 2
      freshWorld).outputCnt = 1 ∧
    (sendDataReply (constantEnv 4294967296) 7 42 (some [1]) (some [2, 3]) 2
      freshWorld).output = 4294967296 ∧
    (iSCSIKernelSend (constantEnv 4294967296) 7 42 (some [1]) (some [2, 3]) 2 freshWorld).1
      = 0 ∧
    (iSCSIKernelSend (constantEnv 4294967296) 7 42 (some [1]) (some [2, 3]) 2 freshWorld).1
      ≠ (((sendDataReply (constantEnv 4294967296) 7 42 (some [1]) (some [2, 3]) 2
          freshWorld).output : Nat) : Int) := by
  decide

/-- C5, amended: for every send with valid identifiers and non-null header and
data, the header call is issued first; if it does not return success, send
returns `EINVAL` and the header call is all it did; otherwise the data call is
issued exactly once, with the two identifiers as scalars, and send returns the
status scalar converted to `errno_t` (its low 32 bits as a signed integer, so the
scalar itself when it is below `2 ^ 31`) when that call succeeds with a result
count of one, and `EINVAL` when the call fails or the count is not one. -/
theorem send_two_calls (env : Env) (w : World) (sessionId connectionId : Nat)
    (bhs data : Option Buf) (length : Nat)
    (hv : sendArgsValid env sessionId connectionId bhs data) :
    ((sendBHSReply env bhs w).kernResult ≠ kIOReturnSuccess →
      iSCSIKernelSend env sessionId connectionId bhs data length w
        = (EINVAL, { w with trace := w.trace ++
            [Event.call (sendBHSCall env bhs w) (sendBHSReply env bhs w)] })) ∧
    ((sendBHSReply env bhs w).kernResult = kIOReturnSuccess →
      (iSCSIKernelSend env sessionId connectionId bhs data length w).2
        = { w with trace := w.trace ++
            [Event.call (sendBHSCall env bhs w) (sendBHSReply env bhs w),
             Event.call (sendDataCall sessionId connectionId data length w)
              (sendDataReply env sessionId connectionId bhs data length w)] } ∧
      (sendDataCall sessionId connectionId data length w).input
        = [sessionId, connectionId] ∧
      ((sendDataReply env sessionId connectionId bhs data length w).kernResult
            = kIOReturnSuccess ∧
          (sendDataReply env sessionId connectionId bhs data length w).outputCnt = 1 →
        (iSCSIKernelSend env sessionId connectionId bhs data length w).1
            = toErrno (sendDataReply env sessionId connectionId bhs data length w).output ∧
          ((sendDataReply env sessionId connectionId bhs data length w).output < 2 ^ 31 →
            (iSCSIKernelSend env sessionId connectionId bhs data length w).1
              = (((sendDataReply env sessionId connectionId bhs data length w).output
                  : Nat) : Int))) ∧
      ((sendDataReply env sessionId connectionId bhs data length w).kernResult
            ≠ kIOReturnSuccess ∨
          (sendDataReply env sessionId connectionId bhs data length w).outputCnt ≠ 1 →
        (iSCSIKernelSend env sessionId connectionId bhs data length w).1 = EINVAL)) := by
  obtain ⟨hs, hb, hd, hc⟩ := hv
  have hg : ¬ (sessionId = env.kiSCSIInvalidSessionId ∨ bhs = none ∨ data = none ∨
      connectionId = env.kiSCSIInvalidConnectionId) := by
    simp [hs, hb, hd, hc]
  have e1 : IOConnectCallStructMethod env Selector.kiSCSISendBHS bhs env.sizeofInitiatorBHS
      NULL none w = (sendBHSReply env bhs w, { w with trace := w.trace ++
        [Event.call (sendBHSCall env bhs w) (sendBHSReply env bhs w)] }) := rfl
  have e2 : IOConnectCallMethod env Selector.kiSCSISendData [sessionId, connectionId] data
      length (some 1) NULL none { w with trace := w.trace ++
        [Event.call (sendBHSCall env bhs w) (sendBHSReply env bhs w)] }
      = (sendDataReply env sessionId connectionId bhs data length w,
        { w with trace := w.trace ++
          [Event.call (sendBHSCall env bhs w) (sendBHSReply env bhs w),
           Event.call (sendDataCall sessionId connectionId data length w)
            (sendDataReply env sessionId connectionId bhs data length w)] }) := by
    simp [IOConnectCallMethod, sendDataReply, sendDataCall]
  unfold iSCSIKernelSend
  rw [if_neg hg]
  simp only [e1]
  constructor
  · intro h1
    simp [h1]
  · intro h1
    simp only [h1, ne_eq, not_true_eq_false, if_false, e2]
    refine ⟨?_, rfl, ?_, ?_⟩
    · split_ifs <;> rfl
    · rintro ⟨h2, h3⟩
      simp only [h2, h3, if_true, true_and]
      intro hlt
      have hmod : (sendDataReply env sessionId connectionId bhs data length w).output % 2 ^ 32
          = (sendDataReply env sessionId connectionId bhs data length w).output :=
        Nat.mod_eq_of_lt (by omega)
      unfold toErrno
      rw [hmod, if_pos hlt]
    · rintro (h2 | h3)
      · simp [h2]
      · simp [h3]

/-- The example of C5: session 7, connection 42, both calls succeed and the driver
reports status 0; send makes the two calls and returns 0. -/
theorem send_two_calls_witness :
    sendArgsValid (constantEnv 0) 7 42 (some [1]) (some [2, 3]) ∧
    (sendBHSReply (constantEnv 0) (some [1]) freshWorld).kernResult = kIOReturnSuccess ∧
    (iSCSIKernelSend (constantEnv 0) 7 42 (some [1]) (some [2, 3]) 2 freshWorld).1
      = toErrno (sendDataReply (constantEnv 0) 7 42 (some [1]) (some [2, 3]) 2
          freshWorld).output ∧
    engineCalls (iSCSIKernelSend (constantEnv 0) 7 42 (some [1]) (some [2, 3]) 2
        freshWorld).2.trace
      = [sendBHSCall (constantEnv 0) (some [1]) freshWorld,
         sendDataCall 7 42 (some [2, 3]) 2 freshWorld] :=
  ⟨by decide, by decide,
    (((send_two_calls (constantEnv 0) freshWorld 7 42 (some [1]) (some [2, 3]) 2
      (by decide)).2 (by decide)).2.2.1 (by decide)).1,
    by decide⟩

/-- C7, as stated, fails: the create-session call returns success with one
scalar, `65543`; `createSession` returns `7`, not the scalar. -/
theorem createSession_counterexample :
    (createSessionReply (constantEnv 65543) freshWorld).kernResult = kIOReturnSuccess ∧
    (createSessionReply (constantEnv 65543) freshWorld).outputCnt = 1 ∧
    (createSessionReply (constantEnv 65543) freshWorld).output = 65543 ∧
    (iSCSIKernelCreateSession (constantEnv 65543) freshWorld).1 = 7 ∧
    (iSCSIKernelCreateSession (constantEnv 65543) freshWorld).1
      ≠ (createSessionReply (constantEnv 65543) freshWorld).output := by
  decide

/-- C7, amended: `createSession` makes exactly one boundary call, the
create-session call; if it returns success with a result count of exactly one,
`createSession` returns the returned scalar converted to the 16 bits of a session
identifier (the scalar modulo `2 ^ 16`, so the scalar itself when it is below
`2 ^ 16`); if the call returns non-success, or a result count other than one,
`createSession` returns the invalid-session sentinel. -/
theorem createSession_result (env : Env) (w : World) :
    (iSCSIKernelCreateSession env w).2
        = { w with trace := w.trace ++
            [Event.call (createSessionCall w) (createSessionReply env w)] } ∧
    ((createSessionReply env w).kernResult = kIOReturnSuccess ∧
        (createSessionReply env w).outputCnt = 1 →
      (iSCSIKernelCreateSession env w).1 = (createSessionReply env w).output % 2 ^ 16 ∧
      ((createSessionReply env w).output < 2 ^ 16 →
        (iSCSIKernelCreateSession env w).1 = (createSessionReply env w).output)) ∧
    ((createSessionReply env w).kernResult ≠ kIOReturnSuccess ∨
        (createSessionReply env w).outputCnt ≠ 1 →
      (iSCSIKernelCreateSession env w).1 = env.kiSCSIInvalidSessionId) := by
  have e1 : IOConnectCallScalarMethod env Selector.kiSCSICreateSession [] (some 1) w
      = (createSessionReply env w, { w with trace := w.trace ++
          [Event.call (createSessionCall w) (createSessionReply env w)] }) := rfl
  unfold iSCSIKernelCreateSession
  simp only [e1]
  refine ⟨?_, ?_, ?_⟩
  · split_ifs <;> rfl
  · rintro ⟨h1, h2⟩
    simp only [h1, h2, if_true, toUInt16, true_and]
    intro hlt
    exact Nat.mod_eq_of_lt hlt
  · rintro (h1 | h2)
    · simp [h1]
    · simp [h2]

/-- The example of C7: the driver assigns the qualifier 7; `createSession` returns 7. -/
theorem createSession_result_witness :
    (createSessionReply (constantEnv 7) freshWorld).kernResult = kIOReturnSuccess ∧
    (createSessionReply (constantEnv 7) freshWorld).outputCnt = 1 ∧
    (createSessionReply (constantEnv 7) freshWorld).output < 2 ^ 16 ∧
    (iSCSIKernelCreateSession (constantEnv 7) freshWorld).1
      = (createSessionReply (constantEnv 7) freshWorld).output :=
  ⟨by decide, by decide, by decide,
    ((createSession_result (constantEnv 7) freshWorld).2.1 ⟨by decide, by decide⟩).2
      (by decide)⟩

/-- C6, the code at the failing input: the service is found, `IOServiceOpen`
returns `kIOReturnError`, and `iSCSIKernelInitialize` goes on to the
`kiSCSIOpenInitiator` call on the handle it holds and returns what that call
returns, here success. -/
theorem initialize_ignores_open_failure :
    openFailsEnv.IOServiceGetMatchingService openedWorld.trace ≠ IO_OBJECT_NULL ∧
    (openFailsEnv.IOServiceOpen (openedWorld.trace ++ [Event.getMatchingService 1]) 1
      openedWorld.connection).1 ≠ kIOReturnSuccess ∧
    (iSCSIKernelInitialize openFailsEnv openedWorld).1 = kIOReturnSuccess ∧
    engineCalls (iSCSIKernelInitialize openFailsEnv openedWorld).2.trace
      = [{ connection := 5, selector := Selector.kiSCSIOpenInitiator, input := [],
           inputStruct := none, inputStructCnt := 0, outputCnt := none,
           outputStruct := NULL, outputStructCnt := none }] := by
  decide

/-- The example of C1: with the sentinel `0` as session identifier, a release of the
session and a send on connection 42 do nothing, and the send returns `EINVAL`. -/
theorem invalid_id_no_boundary_call_witness :
    (0 : Nat) = (constantEnv 0).kiSCSIInvalidSessionId ∧
    iSCSIKernelReleaseSession (constantEnv 0) 0 freshWorld = freshWorld ∧
    iSCSIKernelSend (constantEnv 0) 0 42 (some [1]) (some [2, 3]) 2 freshWorld
      = (EINVAL, freshWorld) :=
  ⟨by decide,
    ((invalid_id_no_boundary_call (constantEnv 0) freshWorld 0 42 2 (some [9]) (some [4])
      (some [5]) (some [1]) (some [2, 3]) 2000 1000 0 2).1 (by decide)).1,
    ((invalid_id_no_boundary_call (constantEnv 0) freshWorld 0 42 2 (some [9]) (some [4])
      (some [5]) (some [1]) (some [2, 3]) 2000 1000 0 2).2 (Or.inl (by decide))).2.2.2.1⟩

/-- The example of C8: session 7, connection 42, the header probe fails; receive
returns `EIO` and leaves the two slots as they were. -/
theorem recv_probe_failure_witness :
    recvArgsValid failingEnv 7 42 1000 ∧
    (recvBHSReply failingEnv 7 42 1000 freshWorld).kernResult ≠ kIOReturnSuccess ∧
    (iSCSIKernelRecv failingEnv 7 42 1000 0 0 freshWorld).1
      = { err := EIO, data := 0, length := 0 } :=
  ⟨by decide, by decide,
    ((recv_probe_failure failingEnv freshWorld 7 42 1000 0 0).1 (by decide)
      (Or.inl (by decide))).1⟩

/-- The example of C3: session 7, connection 42, the probed header announces no
data; receive returns success with length 0 and the data slot untouched. -/
theorem recv_header_only_witness :
    recvArgsValid headerOnlyEnv 7 42 1000 ∧
    probeOk (recvBHSReply headerOnlyEnv 7 42 1000 freshWorld) ∧
    recvLength headerOnlyEnv 7 42 1000 freshWorld = 0 ∧
    (iSCSIKernelRecv headerOnlyEnv 7 42 1000 0 99 freshWorld).1
      = { err := 0, data := 0, length := 0 } :=
  ⟨by decide, by decide, by decide,
    (recv_header_only headerOnlyEnv freshWorld 7 42 1000 0 99 (by decide) (by decide)
      (by decide)).1⟩

/-- The example of C9: session 7, connection 42, the probed header announces 10
bytes and the allocation of the 12 bytes fails; receive returns `EIO`. -/
theorem recv_allocation_failure_witness :
    recvArgsValid noMemoryEnv 7 42 1000 ∧
    probeOk (recvBHSReply noMemoryEnv 7 42 1000 freshWorld) ∧
    recvLength noMemoryEnv 7 42 1000 freshWorld = 12 ∧
    recvBuffer noMemoryEnv 7 42 1000 freshWorld = NULL ∧
    (iSCSIKernelRecv noMemoryEnv 7 42 1000 0 0 freshWorld).1.err = EIO :=
  ⟨by decide, by decide, by decide, by decide,
    ((recv_allocation_failure noMemoryEnv freshWorld 7 42 1000 0 0 (by decide)
      (by decide)).1 (by decide) (by decide)).1⟩

/-- The example of C2: session 7, connection 42, the probed header announces 10
bytes, the 12 bytes are allocated at 4096 and the data fetch fails; receive returns
`EIO` and no buffer of this receive is live. -/
theorem recv_fetch_failure_releases_witness :
    recvArgsValid fetchFailsEnv 7 42 1000 ∧
    probeOk (recvBHSReply fetchFailsEnv 7 42 1000 freshWorld) ∧
    recvLength fetchFailsEnv 7 42 1000 freshWorld = 12 ∧
    recvBuffer fetchFailsEnv 7 42 1000 freshWorld = 4096 ∧
    (recvDataReply fetchFailsEnv 7 42 1000 freshWorld).kernResult ≠ kIOReturnSuccess ∧
    (iSCSIKernelRecv fetchFailsEnv 7 42 1000 0 0 freshWorld).1.err = EIO ∧
    liveBuffers
      (eventsSince freshWorld (iSCSIKernelRecv fetchFailsEnv 7 42 1000 0 0 freshWorld).2)
      = [] :=
  ⟨by decide, by decide, by decide, by decide, by decide,
    (recv_fetch_failure_releases fetchFailsEnv freshWorld 7 42 1000 0 0 (by decide)
      (by decide) (by decide) (by decide) (Or.inl (by decide))).1,
    (recv_fetch_failure_releases fetchFailsEnv freshWorld 7 42 1000 0 0 (by decide)
      (by decide) (by decide) (by decide) (Or.inl (by decide))).2.2.2.1⟩

/-- What an options function did when it made the call `c`: that call and nothing else. -/
theorem afterOneCall_events (env : Env) (c : EngineCall) (w : World) :
    eventsSince w (afterOneCall env c w).2 = [Event.call c (env.engine w.trace c)] := by
  simp [afterOneCall, eventsSince_append]

/-- The example of C10: session 7 and a non-null options block; `setSessionOptions`
makes the one call and returns `0` when the call succeeds. -/
theorem options_contract_witness :
    ¬ ((7 : Nat) = (constantEnv 0).kiSCSIInvalidSessionId ∨ (some [1, 2] : Option Buf) = none) ∧
    iSCSIKernelSetSessionOptions (constantEnv 0) 7 (some [1, 2]) freshWorld
      = afterOneCall (constantEnv 0)
          (setSessionOptionsCall (constantEnv 0) 7 (some [1, 2]) freshWorld) freshWorld ∧
    (iSCSIKernelSetSessionOptions (constantEnv 0) 7 (some [1, 2]) freshWorld).1 = 0 :=
  ⟨by decide,
    (options_contract (constantEnv 0) freshWorld 7 42 (some [1, 2]) 2000).1.2 (by decide),
    by decide⟩

end iSCSIKernelInterface
